import Mathlib

/-!
Verification development for the deepchecks excerpt:
* `deepchecks/tabular/checks/data_integrity/data_duplicates.py` (duplicate detection),
* `deepchecks/core/serialization/suite_result/html.py` (suite-result HTML assembly).

Dataframes are embedded as lists of rows of cell values; pandas/numpy operations
used by the source (`groupby(..., dropna=False).size()`, elementwise `==` with
NaN semantics, `nlargest`, `sort_values`, `drop_duplicates`) are given explicit
executable models.  HTML output is embedded as a list of tokens, where calls to
external collaborators (the single-check renderer, table serializers) become
opaque tokens recording the arguments they were given.
-/

namespace Deepchecks

/-- A cell value of a dataframe.  `vNull` models a missing value (NaN/None). -/
inductive Val where
  | vInt (n : Int)
  | vStr (s : String)
  | vNull
deriving DecidableEq, Repr

/-- A pandas column label: either an integer label (`Sum.inl 0` is the label a
single anonymous series receives) or a string name. -/
abbrev ColName := Sum Nat String

instance {α : Type} [DecidableEq α] (a : α) (l : List α) : Decidable (a ∈ l) :=
  decidable_of_iff (∃ x ∈ l, x = a) (by simp)

/-- A dataframe row: the cell values, in column order. -/
abbrev Row := List Val

/-- The sampled and column-projected dataframe that `DataDuplicates.run_logic`
operates on (the result of `context.get_data_by_kind(...).sample(...).data`
followed by `select_from_dataframe`): column labels, row index labels, rows. -/
structure DataFrame where
  cols : List ColName
  index : List Nat
  rows : List Row
deriving DecidableEq, Repr

/-- Ordering on cell values used by pandas when sorting group keys:
integers by value, strings lexicographically, missing values last
(`groupby(..., sort=True, dropna=False)` places NaN keys last). -/
def valLe : Val → Val → Bool
  | Val.vInt m, Val.vInt n => m ≤ n
  | Val.vInt _, Val.vStr _ => true
  | Val.vInt _, Val.vNull => true
  | Val.vStr _, Val.vInt _ => false
  | Val.vStr a, Val.vStr b => a ≤ b
  | Val.vStr _, Val.vNull => true
  | Val.vNull, Val.vNull => true
  | Val.vNull, _ => false

/-- Lexicographic ordering on rows (tuples of group-key values). -/
def rowLe : Row → Row → Bool
  | [], _ => true
  | _ :: _, [] => false
  | a :: as, b :: bs => if a = b then rowLe as bs else valLe a b

/-- Insert a row into an ascending-sorted list of rows. -/
def insertRowAsc (x : Row) : List Row → List Row
  | [] => [x]
  | y :: ys => if rowLe x y then x :: y :: ys else y :: insertRowAsc x ys

/-- Sort rows ascending (model of pandas sorting group keys). -/
def sortRowsAsc (l : List Row) : List Row :=
  l.foldr insertRowAsc []

/-- `df[data_columns].groupby(data_columns, dropna=False).size()`:
one entry per distinct row value (missing values are valid key components and
compare equal to each other), keys in ascending sorted order (pandas groupby
default `sort=True`), each paired with its occurrence count. -/
def groupbySize (rows : List Row) : List (Row × Nat) :=
  (sortRowsAsc rows.dedup).map (fun k => (k, rows.count k))

/-- `n_unique = len(group_unique_data)`. -/
def nUnique (df : DataFrame) : Nat :=
  (groupbySize df.rows).length

/-- `percent_duplicate = 1 - (1.0 * int(n_unique)) / (1.0 * int(n_samples))`,
embedded over exact rationals. -/
def percentDuplicate (df : DataFrame) : ℚ :=
  1 - (nUnique df : ℚ) / (df.rows.length : ℚ)

/-- Elementwise pandas/numpy equality of cell values: a missing value (NaN)
compares unequal to everything, itself included. -/
def valEqPandas : Val → Val → Bool
  | Val.vNull, _ => false
  | _, Val.vNull => false
  | a, b => a = b

/-- Row-level model of `np.all(df == row[data_columns], axis=1)`. -/
def rowEqPandas (r k : Row) : Bool :=
  (r.zip k).all (fun p => valEqPandas p.1 p.2) && r.length = k.length

/-- Stable insertion into a descending-by-count-sorted list of groups:
an element inserted by `foldr` is earlier in the original list, so it goes
before elements of equal count (model of `nlargest` with `keep='first'`). -/
def insertDescByCount (x : Row × Nat) : List (Row × Nat) → List (Row × Nat)
  | [] => [x]
  | y :: ys => if y.2 ≤ x.2 then x :: y :: ys else y :: insertDescByCount x ys

/-- Stable sort of groups by occurrence count, descending. -/
def sortDescByCount (l : List (Row × Nat)) : List (Row × Nat) :=
  l.foldr insertDescByCount []

/-- `duplicates_counted[duplicates_counted['Number of Duplicates'] > 1]`:
the duplicate groups, in the groupby key order. -/
def dupGroups (df : DataFrame) : List (Row × Nat) :=
  (groupbySize df.rows).filter (fun g => 1 < g.2)

/-- `.nlargest(self.n_to_show, ['Number of Duplicates'])`: descending stable
sort by count, keep the first `k` rows. -/
def mostDuplicates (df : DataFrame) (k : Nat) : List (Row × Nat) :=
  (sortDescByCount (dupGroups df)).take k

/-- `df.index[np.all(df == row[data_columns], axis=1)].to_list()`: the index
labels of the rows whose projected values compare (pandas-)equal to the key. -/
def instancesOf (df : DataFrame) (key : Row) : List Nat :=
  (df.index.zip df.rows).filterMap
    (fun p => if rowEqPandas p.2 key then some p.1 else none)

/-- `str(group_unique_data.keys().names)`: the string form of the list of key
names, the synthetic label used by the anonymous-series workaround. -/
def strOfNames (names : List ColName) : String :=
  let one : ColName → String := fun c =>
    match c with
    | Sum.inl n => toString n
    | Sum.inr s => String.append (String.append "\x27" s) "\x27"
  String.append (String.append "[" (String.intercalate ", " (names.map one))) "]"

/-- The synthetic column label `new_name = str(group_unique_data.keys().names)`. -/
def syntheticName (names : List ColName) : ColName :=
  Sum.inr (strOfNames names)

/-- Column headers of `duplicates_counted` after lines 96–104 of
`data_duplicates.py`: if the key names contain the anonymous label `0`, rename
it to the synthetic name, reset the index (which appends the size column,
labelled `0`, and renames it to `'Number of Duplicates'` — the rename applies
to every column labelled `0`), then rename the synthetic name back to `0`. -/
def dupCountedCols (names : List ColName) : List ColName :=
  let anonLabel : ColName := Sum.inl 0
  let isAnonymous : Bool := names.contains anonLabel
  let newName := syntheticName names
  let names1 :=
    if isAnonymous then
      names.map (fun n => if n = Sum.inl 0 then newName else n)
    else names
  let cols1 :=
    (names1 ++ [Sum.inl 0]).map
      (fun c => if c = Sum.inl 0 then Sum.inr "Number of Duplicates" else c)
  if isAnonymous then
    cols1.map (fun c => if c = newName then Sum.inl 0 else c)
  else cols1

/-- The evidence table produced under `context.with_display`: the headers of
`most_duplicates` and, per kept group, its key, its occurrence count, and the
recovered `Instances` index labels. -/
structure DisplayOut where
  cols : List ColName
  groups : List (Row × Nat × List Nat)
deriving DecidableEq, Repr

/-- The errors `run_logic` may raise. -/
inductive CheckError where
  | datasetValidationError (msg : String)
deriving DecidableEq, Repr

/-- The `CheckResult` produced by `run_logic`: the duplication ratio and the
optional display payload. -/
structure RunResult where
  percent : ℚ
  display : Option DisplayOut
deriving DecidableEq, Repr

instance {ε α : Type} [DecidableEq ε] [DecidableEq α] :
    DecidableEq (Except ε α) := fun a b =>
  match a, b with
  | Except.ok x, Except.ok y =>
    if h : x = y then isTrue (by rw [h]) else isFalse (by simp [h])
  | Except.error x, Except.error y =>
    if h : x = y then isTrue (by rw [h]) else isFalse (by simp [h])
  | Except.ok _, Except.error _ => isFalse (by simp)
  | Except.error _, Except.ok _ => isFalse (by simp)

/-- The display payload built on lines 93–115 of `data_duplicates.py`. -/
def displayOut (df : DataFrame) (k : Nat) : DisplayOut :=
  { cols := dupCountedCols df.cols
    groups := (mostDuplicates df k).map (fun g => (g.1, g.2, instancesOf df g.1)) }

/-- `DataDuplicates.run_logic`, lines 77–124 of `data_duplicates.py`, acting on
the sampled and projected dataframe `df` (`with_display` is the context flag,
`k` is `self.n_to_show`).  The category-dtype cast on lines 83–86 changes no
cell value and is a no-op in this value model. -/
def runLogic (df : DataFrame) (withDisplay : Bool) (k : Nat) :
    Except CheckError RunResult :=
  if df.rows.length = 0 then
    Except.error (CheckError.datasetValidationError "Dataset does not contain any data")
  else if withDisplay && decide (0 < percentDuplicate df) then
    Except.ok { percent := percentDuplicate df, display := some (displayOut df k) }
  else
    Except.ok { percent := percentDuplicate df, display := none }

/-! ### The `fix` method (lines 126–151 of `data_duplicates.py`)

Python objects live in an explicit store of dataframes; variables hold
references, so in-place mutation and fresh copies are distinguishable. -/

/-- The `keep` argument of `drop_duplicates`: `'first'`, `'last'`, `False`. -/
inductive KeepMode where
  | first
  | last
  | dropAll
deriving DecidableEq, Repr

/-- Keep the first occurrence of every row value (`keep='first'`). -/
def dropDupFirstAux : List (Nat × Row) → List Row → List (Nat × Row)
  | [], _ => []
  | p :: rest, seen =>
    if seen.contains p.2 then dropDupFirstAux rest seen
    else p :: dropDupFirstAux rest (p.2 :: seen)

/-- `DataFrame.drop_duplicates(keep=...)` (pandas): whole-row duplicates are
removed, keeping the first occurrence, the last occurrence, or none at all. -/
def dropDuplicates (keep : KeepMode) (df : DataFrame) : DataFrame :=
  let pairs := df.index.zip df.rows
  let kept :=
    match keep with
    | KeepMode.first => dropDupFirstAux pairs []
    | KeepMode.last => (dropDupFirstAux pairs.reverse []).reverse
    | KeepMode.dropAll => pairs.filter (fun p => df.rows.count p.2 == 1)
  { cols := df.cols, index := kept.map Prod.fst, rows := kept.map Prod.snd }

/-- First occurrences of column labels, in encounter order. -/
def firstOccsCols (l : List ColName) : List ColName :=
  l.foldl (fun acc x => if acc.contains x then acc else acc ++ [x]) []

/-- Restrict a dataframe to the given column labels, in the given order. -/
def projectCols (df : DataFrame) (keepCols : List ColName) : DataFrame :=
  let idxs := keepCols.filterMap (fun c => df.cols.findIdx? (fun d => d == c))
  { cols := keepCols
    index := df.index
    rows := df.rows.map (fun r => idxs.map (fun i => r.getD i Val.vNull)) }

/-- Modelled from the spec: `select_from_dataframe`
(`deepchecks.utils.dataframes`, outside the excerpt) — "if `columns` given,
restrict to exactly those (order preserved, duplicates in the column list
collapsed); else all columns minus `ignore_columns`". -/
def selectFromDataframe (df : DataFrame)
    (columns ignoreColumns : Option (List ColName)) : DataFrame :=
  match columns with
  | some cs => projectCols df (firstOccsCols cs)
  | none =>
    match ignoreColumns with
    | some ig => projectCols df (df.cols.filter (fun c => !ig.contains c))
    | none => df

/-- A heap of dataframe objects; Python variables hold references into it. -/
structure Store where
  frames : List DataFrame
deriving Repr

/-- Dereference (out-of-range references read an empty frame). -/
def Store.read (st : Store) (r : Nat) : DataFrame :=
  st.frames[r]?.getD { cols := [], index := [], rows := [] }

/-- Allocate a fresh object, returning its reference. -/
def Store.alloc (st : Store) (f : DataFrame) : Store × Nat :=
  ({ frames := st.frames ++ [f] }, st.frames.length)

/-- Overwrite the object behind a reference (in-place mutation). -/
def Store.write (st : Store) (r : Nat) (f : DataFrame) : Store :=
  { frames := st.frames.set r f }

/-- `DataDuplicates.fix` (lines 144–151): `data = dataset.data.copy()`
allocates a fresh frame; `data = select_from_dataframe(data, ...)` rebinds the
local name to another fresh frame; `data.drop_duplicates(inplace=True,
keep=keep)` mutates that frame in place; `dataset.copy(data)` builds a fresh
dataset around the result (`Dataset.copy` is outside the excerpt; modelled
from the spec as constructing a new dataset carrying the given data).  Returns
the final store and the reference wrapped by the returned `FixResult`. -/
def fix (st : Store) (dataset : Nat)
    (columns ignoreColumns : Option (List ColName)) (keep : KeepMode) :
    Store × Nat :=
  let s1 := st.alloc (st.read dataset)
  let s2 := s1.1.alloc (selectFromDataframe (s1.1.read s1.2) columns ignoreColumns)
  let s3 := s2.1.write s2.2 (dropDuplicates keep (s2.1.read s2.2))
  s3.alloc (s3.read s2.2)

/-! ### Suite-result HTML serialization (`suite_result/html.py`) -/

/-- A check-result section name (`Literal['condition-table', 'additional-output']`). -/
inductive CheckSection where
  | conditionTable
  | additionalOutput
deriving DecidableEq, Repr

/-- Modelled from the spec: the per-check outcome model (`check_result.py`,
outside the excerpt) — a tagged variant over Success/Failure.  A
`checkResult` carries its header, whether it has condition verdicts and
whether it has a non-empty display; a `checkFailure` carries its header, the
error kind name, the error message, and whether the error belongs to the
recognized domain-error family (`DatasetValidationError`,
`ModelValidationError`, `DeepchecksProcessError`). -/
inductive Outcome where
  | checkResult (header : String) (hasConditions : Bool) (hasDisplay : Bool)
  | checkFailure (header : String) (errKind : String) (errMsg : String)
      (isDomainError : Bool)
deriving DecidableEq, Repr

/-- The suite result being serialized: name, extra info lines, outcomes in run
order. -/
structure SuiteResult where
  name : String
  extraInfo : List String
  results : List Outcome
deriving DecidableEq, Repr

/-- `isinstance(it, check_types.CheckFailure)`. -/
def Outcome.isFailure : Outcome → Bool
  | Outcome.checkFailure _ _ _ _ => true
  | Outcome.checkResult _ _ _ => false

/-- `it.get_header()` / `it.header`. -/
def Outcome.headerOf : Outcome → String
  | Outcome.checkResult h _ _ => h
  | Outcome.checkFailure h _ _ _ => h

/-- Membership in `results_with_conditions` (a Success with ≥ 1 condition). -/
def Outcome.hasConditionsB : Outcome → Bool
  | Outcome.checkResult _ c _ => c
  | Outcome.checkFailure _ _ _ _ => false

/-- Membership in `results_with_display` (a Success with non-empty display). -/
def Outcome.hasDisplayB : Outcome → Bool
  | Outcome.checkResult _ _ d => d
  | Outcome.checkFailure _ _ _ _ => false

/-- Membership in `results_without_display` (a Success with empty display). -/
def Outcome.noDisplayB : Outcome → Bool
  | Outcome.checkResult _ _ d => !d
  | Outcome.checkFailure _ _ _ _ => false

/-- Modelled from the spec: `SuiteResult.select_results` applied to the stored
index sets (outside the excerpt) — each derived subset is an ordered
subsequence preserving original run order, i.e. a filter over `results`. -/
def selectResults (s : SuiteResult) (p : Outcome → Bool) : List Outcome :=
  s.results.filter p

/-- The subset of Python keyword arguments relevant here: names mapped to an
optional check-section list. -/
abbrev Kwargs := List (String × Option (List CheckSection))

/-- Modelled from the spec: the single-outcome renderer
(`CheckResultSerializer.serialize`, outside the excerpt) declares its
section-restriction parameter under the name `check_sections`
(`render(outcome, anchorId?, sectionModes, includeResources)`); keyword
arguments it does not declare are absorbed unused by its `**kwargs`
catch-all, leaving `check_sections` at its default `None` — meaning all
sections, the condition table included, are rendered. -/
def effectiveCheckSections (kwargs : Kwargs) : Option (List CheckSection) :=
  match kwargs.lookup "check_sections" with
  | some v => v
  | none => none

/-- A token of serialized HTML.  Calls to external collaborators become opaque
tokens recording the arguments they were given: `checkRender` is one
invocation of the single-outcome renderer (the outcome's header, the section
restriction it received, and its two resource-inclusion flags);
`conditionsTable` and `failuresTable` are serialized dataframes;
`summaryBlock` abstracts the summary string templating of lines 143–216. -/
inductive Tok where
  | requirejsScript (connected : Bool)
  | plotlyjsScript (connected : Bool)
  | boldHr
  | lightHr
  | text (s : String)
  | header2 (s : String)
  | summaryBlock (name : String) (extraInfo : List String) (outputId : Option String)
  | conditionsTable (checkHeaders : List String) (maxInfoLen : Nat)
  | checkRender (header : String) (checkSections : Option (List CheckSection))
      (includePlotlyjs : Bool) (includeRequirejs : Bool)
  | failuresTable (rows : List (String × String))
  | goToTop (anchor : String)
deriving DecidableEq, Repr

/-- `Html.light_hr.join(entries)`: the entries with a light rule between each
consecutive pair. -/
def joinLightHr : List Tok → List Tok
  | [] => []
  | x :: xs => x :: xs.foldr (fun t acc => Tok.lightHr :: t :: acc) []

/-- `prepare_summary` (lines 180–216): header, prologue and extra-info string
templating, abstracted to one opaque block (it produces no resource, renderer
or table tokens). -/
def prepareSummary (s : SuiteResult) (outputId : Option String) : List Tok :=
  [Tok.summaryBlock s.name s.extraInfo outputId]

/-- `prepare_conditions_table` (lines 218–251): a placeholder paragraph when
no outcome carries conditions, else a heading plus the aggregated conditions
dataframe (`aggregate_conditions` with `max_info_len=300`, outside the
excerpt, recorded as an opaque table token naming the contributing checks). -/
def prepareConditionsTable (s : SuiteResult) (outputId : Option String) : List Tok :=
  if (selectResults s Outcome.hasConditionsB).isEmpty then
    [Tok.text "No conditions defined on checks in the suite."]
  else
    [Tok.header2 "Conditions Summary",
     Tok.conditionsTable
       ((selectResults s Outcome.hasConditionsB).map Outcome.headerOf) 300]

/-- `prepare_results_with_condition_and_display` (lines 253–290): every
outcome in `results_with_conditions & results_with_display` goes through the
single-outcome renderer, the section restriction passed under the keyword
`check_sections` (line 282) and resource inclusion disabled, the renderings
joined by light rules under a heading. -/
def prepareResultsWithConditionAndDisplay (s : SuiteResult)
    (outputId : Option String) (checkSections : Option (List CheckSection)) :
    List Tok :=
  let results := selectResults s (fun o => o.hasConditionsB && o.hasDisplayB)
  let rendered := results.map (fun o =>
    Tok.checkRender o.headerOf
      (effectiveCheckSections [("check_sections", checkSections)]) false false)
  Tok.header2 "Check With Conditions Output" :: joinLightHr rendered

/-- `prepare_results_without_condition` (lines 292–329): the same rendering
for `results_without_conditions & results_with_display`, except the source
passes the section restriction under the keyword `include` (line 321), not
`check_sections`. -/
def prepareResultsWithoutCondition (s : SuiteResult)
    (outputId : Option String) (checkSections : Option (List CheckSection)) :
    List Tok :=
  let results := selectResults s (fun o => !o.hasConditionsB && o.hasDisplayB)
  let rendered := results.map (fun o =>
    Tok.checkRender o.headerOf
      (effectiveCheckSections [("include", checkSections)]) false false)
  Tok.header2 "Check Without Conditions Output" :: joinLightHr rendered

/-- The selection `self.value.failures | self.value.results_without_display`. -/
def failuresOrNoDisplay (o : Outcome) : Bool :=
  o.isFailure || o.noDisplayB

/-- One row of the failures table, `(check-header, message, priority)`
(lines 340–354): a Success without display gets the fixed message and
priority 2; a Failure gets the error message — verbatim for the recognized
domain-error family, else the `{kind}: {message}` composite — and priority 1. -/
def failureRow : Outcome → String × String × Nat
  | Outcome.checkResult h _ _ => (h, "Nothing found", 2)
  | Outcome.checkFailure h kind msg domain =>
      (h, if domain then msg else String.append (String.append kind ": ") msg, 1)

/-- Stable ascending insertion on the priority key (reference sort, see
`SortValuesModel`). -/
def insertByPriority (x : String × String × Nat) :
    List (String × String × Nat) → List (String × String × Nat)
  | [] => [x]
  | y :: ys => if x.2.2 ≤ y.2.2 then x :: y :: ys else y :: insertByPriority x ys

/-- The stable ascending sort on the priority key: the run-order-preserving
reference order.  This is *not* by itself the model of `sort_values` — see
`SortValuesModel`. -/
def sortByPriority (l : List (String × String × Nat)) :
    List (String × String × Nat) :=
  l.foldr insertByPriority []

theorem insertByPriority_perm (x : String × String × Nat)
    (l : List (String × String × Nat)) :
    List.Perm (insertByPriority x l) (x :: l) := by
  induction l with
  | nil => exact List.Perm.refl _
  | cons y ys ih =>
    unfold insertByPriority
    split
    · exact List.Perm.refl _
    · exact (ih.cons y).trans (List.Perm.swap x y ys)

theorem sortByPriority_perm (l : List (String × String × Nat)) :
    List.Perm (sortByPriority l) l := by
  induction l with
  | nil => exact List.Perm.refl _
  | cons x xs ih =>
    show List.Perm (insertByPriority x (sortByPriority xs)) (x :: xs)
    exact (insertByPriority_perm x _).trans (ih.cons x)

theorem insertByPriority_pairwise (x : String × String × Nat)
    (l : List (String × String × Nat))
    (hl : List.Pairwise (fun a b => a.2.2 ≤ b.2.2) l) :
    List.Pairwise (fun a b => a.2.2 ≤ b.2.2) (insertByPriority x l) := by
  induction l with
  | nil => simp [insertByPriority]
  | cons y ys ih =>
    unfold insertByPriority
    split
    next hxy =>
      refine List.Pairwise.cons ?_ hl
      intro z hz
      rcases List.mem_cons.mp hz with hz | hz
      · subst hz; exact hxy
      · exact le_trans hxy (List.rel_of_pairwise_cons hl hz)
    next hxy =>
      have hyx : y.2.2 ≤ x.2.2 := le_of_lt (Nat.lt_of_not_le hxy)
      refine List.Pairwise.cons ?_ (ih (List.Pairwise.of_cons hl))
      intro z hz
      have hz2 : z ∈ x :: ys := (insertByPriority_perm x ys).mem_iff.mp hz
      rcases List.mem_cons.mp hz2 with hz2 | hz2
      · subst hz2; exact hyx
      · exact List.rel_of_pairwise_cons hl hz2

theorem sortByPriority_sorted (l : List (String × String × Nat)) :
    List.Pairwise (fun a b => a.2.2 ≤ b.2.2) (sortByPriority l) := by
  induction l with
  | nil => exact List.Pairwise.nil
  | cons x xs ih => exact insertByPriority_pairwise x _ ih

/-- Model of `df.sort_values(by=['priority'])` with the default
`kind='quicksort'` (line 357).  pandas documents the result as ordered on the
sort key but guarantees stability only for the mergesort/stable kinds; the
numpy introsort actually used is deterministic and falls back to a stable
insertion sort for inputs shorter than its cutoff of 16 elements, while on
longer inputs its pivot swaps may reorder rows with equal keys.  The
embedding therefore quantifies over every sorting routine satisfying this
documented contract instead of fixing one: the output is a permutation of the
input rows, non-decreasing in the priority key, and agrees with the stable
reference sort on inputs of fewer than 16 rows. -/
structure SortValuesModel where
  sort : List (String × String × Nat) → List (String × String × Nat)
  perm : ∀ l, List.Perm (sort l) l
  sorted : ∀ l, List.Pairwise (fun a b => a.2.2 ≤ b.2.2) (sort l)
  smallStable : ∀ l, l.length < 16 → sort l = sortByPriority l

/-- The fully stable member of the contract family (what numpy produces below
its cutoff, extended to all input sizes). -/
def stableSortValues : SortValuesModel :=
  { sort := sortByPriority
    perm := sortByPriority_perm
    sorted := sortByPriority_sorted
    smallStable := fun _ _ => rfl }

/-- `prepare_failures_list` (lines 331–363), parameterized by the
`sort_values` routine `m`: empty output when the selection is empty, else a
heading and the priority-sorted table with the priority column dropped. -/
def prepareFailuresList (m : SortValuesModel) (s : SuiteResult) : List Tok :=
  if (selectResults s failuresOrNoDisplay).isEmpty then []
  else
    [Tok.header2 "Other Checks That Weren\x27t Displayed",
     Tok.failuresTable
       ((m.sort ((selectResults s failuresOrNoDisplay).map failureRow)).map
         (fun r => (r.1, r.2.1)))]

/-- A serialized suite result: the token stream and whether it was wrapped in
the standalone `full_html` document shell. -/
structure SerializedDoc where
  fullHtml : Bool
  toks : List Tok
deriving DecidableEq, Repr

/-- Lines 97–105: the four sections in fixed order, both per-check sections
restricted to `['additional-output']`. -/
def baseSections (s : SuiteResult) (outputId : Option String) : List Tok :=
  prepareSummary s outputId ++ [Tok.boldHr] ++
    prepareConditionsTable s outputId ++ [Tok.boldHr] ++
    prepareResultsWithConditionAndDisplay s outputId
      (some [CheckSection.additionalOutput]) ++ [Tok.boldHr] ++
    prepareResultsWithoutCondition s outputId
      (some [CheckSection.additionalOutput])

/-- Lines 107–108: `if failures: sections.extend([Html.bold_hr, failures])` —
the failures section is appended only when its string is non-empty. -/
def failuresTail (m : SortValuesModel) (s : SuiteResult) : List Tok :=
  if (prepareFailuresList m s).isEmpty then []
  else [Tok.boldHr] ++ prepareFailuresList m s

/-- Lines 110–112: the go-to-top anchor, appended when an output id is given. -/
def anchorTail (outputId : Option String) : List Tok :=
  match outputId with
  | some oid => [Tok.goToTop oid]
  | none => []

/-- The section assembly of `SuiteResultSerializer.serialize` (lines 83–112). -/
def assembledSections (m : SortValuesModel) (s : SuiteResult)
    (outputId : Option String) : List Tok :=
  baseSections s outputId ++ failuresTail m s ++ anchorTail outputId

/-- `SuiteResultSerializer.serialize` (lines 50–141): under `full_html` the
resource flags are forced on and `connected` off; the requirejs/plotlyjs
bootstrap snippets are prepended at most once each, before the assembled
sections.  The `full_html` shell places the same tokens inside a minimal
document, recorded by the flag. -/
def serialize (m : SortValuesModel) (s : SuiteResult) (outputId : Option String)
    (fullHtml includeRequirejs includePlotlyjs connected : Bool) : SerializedDoc :=
  let includePlotlyjs := if fullHtml then true else includePlotlyjs
  let includeRequirejs := if fullHtml then true else includeRequirejs
  let connected := if fullHtml then false else connected
  let resources :=
    (if includeRequirejs then [Tok.requirejsScript connected] else []) ++
      (if includePlotlyjs then [Tok.plotlyjsScript connected] else [])
  { fullHtml := fullHtml, toks := resources ++ assembledSections m s outputId }

/-- Number of module-loader (requirejs) bootstrap snippets a token carries:
the snippet itself, or the snippet an inner renderer embeds when invoked with
`include_requirejs=True`. -/
def requireWeight : Tok → Nat
  | Tok.requirejsScript _ => 1
  | Tok.checkRender _ _ _ rq => if rq then 1 else 0
  | _ => 0

/-- Number of plotting-library (plotlyjs) bootstrap snippets a token carries. -/
def plotlyWeight : Tok → Nat
  | Tok.plotlyjsScript _ => 1
  | Tok.checkRender _ _ pl _ => if pl then 1 else 0
  | _ => 0

/-- Occurrences of the requirejs bootstrap snippet in an assembled document. -/
def requireCount (d : SerializedDoc) : Nat :=
  (d.toks.map requireWeight).sum

/-- Occurrences of the plotlyjs bootstrap snippet in an assembled document. -/
def plotlyCount (d : SerializedDoc) : Nat :=
  (d.toks.map plotlyWeight).sum

/-- First occurrences of row values, in encounter order. -/
def firstOccs (l : List Row) : List Row :=
  l.foldl (fun acc x => if acc.contains x then acc else acc ++ [x]) []

/-- The top-K rule as the spec words it: groups keyed in first-encountered
order, duplicates only, ranked by count descending with ties broken by
first-encountered group order (stable sort), top `k` kept. -/
def specMostDuplicatesFirstEncountered (df : DataFrame) (k : Nat) :
    List (Row × Nat) :=
  (sortDescByCount
    (((firstOccs df.rows).map (fun key => (key, df.rows.count key))).filter
      (fun g => 1 < g.2))).take k

/-! ### Lemmas about the detector embedding -/

theorem insertRowAsc_length (x : Row) (l : List Row) :
    (insertRowAsc x l).length = l.length + 1 := by
  induction l with
  | nil => rfl
  | cons y ys ih =>
    unfold insertRowAsc
    split
    · rfl
    · simp [ih]

theorem sortRowsAsc_length (l : List Row) : (sortRowsAsc l).length = l.length := by
  induction l with
  | nil => rfl
  | cons x xs ih =>
    show (insertRowAsc x (sortRowsAsc xs)).length = xs.length + 1
    rw [insertRowAsc_length, ih]

theorem nUnique_eq_dedup_length (df : DataFrame) :
    nUnique df = df.rows.dedup.length := by
  unfold nUnique groupbySize
  rw [List.length_map, sortRowsAsc_length]

theorem nUnique_le_length (df : DataFrame) : nUnique df ≤ df.rows.length := by
  rw [nUnique_eq_dedup_length]
  exact (List.dedup_sublist df.rows).length_le

theorem percentDuplicate_nonneg (df : DataFrame) (h : df.rows ≠ []) :
    0 ≤ percentDuplicate df := by
  unfold percentDuplicate
  have hn : (0 : ℚ) < (df.rows.length : ℚ) := by
    have : 0 < df.rows.length := List.length_pos.mpr h
    exact_mod_cast this
  have hdiv : (nUnique df : ℚ) / (df.rows.length : ℚ) ≤ 1 := by
    apply div_le_one_of_le₀
    · exact_mod_cast nUnique_le_length df
    · exact le_of_lt hn
  linarith

theorem percentDuplicate_le_one (df : DataFrame) (h : df.rows ≠ []) :
    percentDuplicate df ≤ 1 := by
  unfold percentDuplicate
  have hn : (0 : ℚ) < (df.rows.length : ℚ) := by
    have : 0 < df.rows.length := List.length_pos.mpr h
    exact_mod_cast this
  have hdiv : 0 ≤ (nUnique df : ℚ) / (df.rows.length : ℚ) :=
    div_nonneg (by positivity) (le_of_lt hn)
  linarith

theorem percentDuplicate_eq_zero_iff (df : DataFrame) (h : df.rows ≠ []) :
    percentDuplicate df = 0 ↔ df.rows.Nodup := by
  unfold percentDuplicate
  have hn : ((df.rows.length : ℚ)) ≠ 0 := by
    have : 0 < df.rows.length := List.length_pos.mpr h
    exact_mod_cast Nat.pos_iff_ne_zero.mp this
  constructor
  · intro hz
    have : (nUnique df : ℚ) / (df.rows.length : ℚ) = 1 := by linarith
    have hun : (nUnique df : ℚ) = (df.rows.length : ℚ) := (div_eq_one_iff_eq hn).mp this
    have hun2 : nUnique df = df.rows.length := by exact_mod_cast hun
    rw [nUnique_eq_dedup_length] at hun2
    have hded : df.rows.dedup = df.rows :=
      (List.dedup_sublist df.rows).eq_of_length hun2
    exact List.dedup_eq_self.mp hded
  · intro hnd
    have hded : df.rows.dedup = df.rows := List.dedup_eq_self.mpr hnd
    have hun : nUnique df = df.rows.length := by
      rw [nUnique_eq_dedup_length, hded]
    rw [hun, div_self hn]
    ring

/-- Shape of a successful `run_logic` call: the sample was non-empty, the
returned value is the duplication ratio, and the display is present exactly
when display generation is on and the ratio is positive. -/
theorem runLogic_ok {df : DataFrame} {w : Bool} {k : Nat} {r : RunResult}
    (h : runLogic df w k = Except.ok r) :
    df.rows ≠ [] ∧ r.percent = percentDuplicate df ∧
      r.display =
        (if w && decide (0 < percentDuplicate df) then some (displayOut df k)
         else none) := by
  unfold runLogic at h
  split at h
  · exact absurd h (by simp)
  next hn =>
    have hne : df.rows ≠ [] := by
      intro hr
      exact hn (by simp [hr])
    split at h
    next hc =>
      injection h with h2
      subst h2
      exact ⟨hne, rfl, by simp [hc]⟩
    next hc =>
      injection h with h2
      subst h2
      exact ⟨hne, rfl, by simp [hc]⟩

theorem runLogic_empty {df : DataFrame} (w : Bool) (k : Nat)
    (h : df.rows = []) :
    runLogic df w k =
      Except.error (CheckError.datasetValidationError
        "Dataset does not contain any data") := by
  unfold runLogic
  simp [h]

/-- Evaluation helper: on a non-empty frame with display on and a positive
ratio, `run_logic` returns the ratio together with the display payload. -/
theorem runLogic_eval_display {df : DataFrame} {k : Nat} (p : ℚ)
    (hne : ¬ df.rows.length = 0) (hp : percentDuplicate df = p) (hpos : 0 < p) :
    runLogic df true k =
      Except.ok { percent := p, display := some (displayOut df k) } := by
  subst hp
  unfold runLogic
  rw [if_neg hne, if_pos (by simp [hpos])]

/-- Evaluation helper: display generation off. -/
theorem runLogic_eval_nodisplay {df : DataFrame} {k : Nat}
    (hne : ¬ df.rows.length = 0) :
    runLogic df false k =
      Except.ok { percent := percentDuplicate df, display := none } := by
  unfold runLogic
  rw [if_neg hne, if_neg (by simp)]

/-! ### Lemmas about the descending stable sort (`nlargest`) -/

theorem insertDescByCount_perm (x : Row × Nat) (l : List (Row × Nat)) :
    List.Perm (insertDescByCount x l) (x :: l) := by
  induction l with
  | nil => exact List.Perm.refl _
  | cons y ys ih =>
    unfold insertDescByCount
    split
    · exact List.Perm.refl _
    · exact (ih.cons y).trans (List.Perm.swap x y ys)

theorem sortDescByCount_perm (l : List (Row × Nat)) :
    List.Perm (sortDescByCount l) l := by
  induction l with
  | nil => exact List.Perm.refl _
  | cons x xs ih =>
    show List.Perm (insertDescByCount x (sortDescByCount xs)) (x :: xs)
    exact (insertDescByCount_perm x _).trans (ih.cons x)

theorem insertDescByCount_pairwise (x : Row × Nat) (l : List (Row × Nat))
    (hl : List.Pairwise (fun a b => b.2 ≤ a.2) l) :
    List.Pairwise (fun a b => b.2 ≤ a.2) (insertDescByCount x l) := by
  induction l with
  | nil => simp [insertDescByCount]
  | cons y ys ih =>
    unfold insertDescByCount
    split
    next hyx =>
      refine List.Pairwise.cons ?_ hl
      intro z hz
      rcases List.mem_cons.mp hz with hz | hz
      · subst hz; exact hyx
      · exact le_trans (List.rel_of_pairwise_cons hl hz) hyx
    next hyx =>
      have hx : x.2 ≤ y.2 := le_of_lt (Nat.lt_of_not_le hyx)
      refine List.Pairwise.cons ?_ (ih (List.Pairwise.of_cons hl))
      intro z hz
      have hz2 : z ∈ x :: ys := (insertDescByCount_perm x ys).mem_iff.mp hz
      rcases List.mem_cons.mp hz2 with hz2 | hz2
      · subst hz2; exact hx
      · exact List.rel_of_pairwise_cons hl hz2

theorem sortDescByCount_pairwise (l : List (Row × Nat)) :
    List.Pairwise (fun a b => b.2 ≤ a.2) (sortDescByCount l) := by
  induction l with
  | nil => exact List.Pairwise.nil
  | cons x xs ih =>
    exact insertDescByCount_pairwise x _ ih

theorem mostDuplicates_pairwise (df : DataFrame) (k : Nat) :
    List.Pairwise (fun a b => b.2 ≤ a.2) (mostDuplicates df k) :=
  (sortDescByCount_pairwise (dupGroups df)).sublist (List.take_sublist k _)

theorem mostDuplicates_subset (df : DataFrame) (k : Nat) :
    ∀ g ∈ mostDuplicates df k, g ∈ dupGroups df := by
  intro g hg
  exact (sortDescByCount_perm (dupGroups df)).mem_iff.mp
    (List.take_subset k _ hg)

/-- No duplicate group left out of the displayed top-k has a strictly higher
occurrence count than any displayed group. -/
theorem mostDuplicates_top (df : DataFrame) (k : Nat) :
    ∀ g ∈ dupGroups df, g ∉ mostDuplicates df k →
      ∀ g2 ∈ mostDuplicates df k, g.2 ≤ g2.2 := by
  intro g hg hgout g2 hg2
  have hmem : g ∈ sortDescByCount (dupGroups df) :=
    (sortDescByCount_perm (dupGroups df)).mem_iff.mpr hg
  have hsplit :
      sortDescByCount (dupGroups df) =
        mostDuplicates df k ++ (sortDescByCount (dupGroups df)).drop k := by
    unfold mostDuplicates
    rw [List.take_append_drop]
  have hdrop : g ∈ (sortDescByCount (dupGroups df)).drop k := by
    rw [hsplit] at hmem
    rcases List.mem_append.mp hmem with hmem | hmem
    · exact absurd hmem hgout
    · exact hmem
  have hpw := sortDescByCount_pairwise (dupGroups df)
  rw [hsplit] at hpw
  exact (List.pairwise_append.mp hpw).2.2 g2 hg2 g hdrop

/-! ### Claim theorems for the duplicate detector -/

/-- C1: `DataDuplicates.run_logic` raises `DatasetValidationError` (the
`EmptyDatasetError` of the spec) exactly on an empty sampled projection: for a
sample with zero rows it fails with that error, and for any non-empty sample
it raises no error. -/
theorem C1_empty_sample_error (df : DataFrame) (w : Bool) (k : Nat) :
    (df.rows = [] →
      runLogic df w k =
        Except.error (CheckError.datasetValidationError
          "Dataset does not contain any data"))
    ∧ (df.rows ≠ [] → ∃ r, runLogic df w k = Except.ok r) := by
  constructor
  · intro h
    exact runLogic_empty w k h
  · intro h
    unfold runLogic
    rw [if_neg (by simpa using h)]
    split
    · exact ⟨_, rfl⟩
    · exact ⟨_, rfl⟩

/-- Witness for C1 at a concrete empty dataframe. -/
theorem C1_empty_sample_error_witness :
    runLogic { cols := [Sum.inr "a"], index := [], rows := [] } true 5 =
      Except.error (CheckError.datasetValidationError
        "Dataset does not contain any data") :=
  (C1_empty_sample_error { cols := [Sum.inr "a"], index := [], rows := [] }
    true 5).1 rfl

/-- A two-row dataframe whose single column holds a missing value in both
rows: one duplicate group whose key contains a null. -/
def c2df : DataFrame :=
  { cols := [Sum.inr "a"], index := [0, 1], rows := [[Val.vNull], [Val.vNull]] }

/-- C2 (failing input): on two identical all-null rows, `run_logic` reports
the duplicate group with occurrence count 2, yet recovers zero original row
identifiers for it — `np.all(df == row, axis=1)` is elementwise pandas
equality, under which a missing value is unequal even to itself — so the
count of recovered identifiers (0) differs from the group's occurrence
count (2), while the group itself was counted by `groupby(..., dropna=False)`. -/
theorem C2_null_group_loses_instances :
    runLogic c2df true 5 =
      Except.ok
        { percent := 1 / 2
          display := some
            { cols := [Sum.inr "a", Sum.inr "Number of Duplicates"]
              groups := [([Val.vNull], 2, [])] } }
    ∧ ([] : List Nat).length ≠ 2 := by
  have hp : percentDuplicate c2df = 1 / 2 := by
    have h1 : nUnique c2df = 1 := by decide
    have h2 : c2df.rows.length = 2 := by decide
    unfold percentDuplicate
    rw [h1, h2]
    norm_num
  refine ⟨?_, by decide⟩
  have hd : displayOut c2df 5 =
      ({ cols := [Sum.inr "a", Sum.inr "Number of Duplicates"]
         groups := [([Val.vNull], 2, [])] } : DisplayOut) := by decide
  rw [runLogic_eval_display (1 / 2) (by decide) hp (by norm_num), hd]

/-- The dataframe refuting the claimed first-encountered tie-break: the group
with key 5 is encountered first, the group with key 3 sorts first. -/
def c5df : DataFrame :=
  { cols := [Sum.inr "a"], index := [0, 1, 2, 3]
    rows := [[Val.vInt 5], [Val.vInt 5], [Val.vInt 3], [Val.vInt 3]] }

theorem c5df_percent : percentDuplicate c5df = 1 / 2 := by
  have h1 : nUnique c5df = 2 := by decide
  have h2 : c5df.rows.length = 4 := by decide
  unfold percentDuplicate
  rw [h1, h2]
  norm_num

/-- C5 (counterexample): with `n_to_show = 1` and two duplicate groups of
equal count, the detector keeps the group whose key sorts first (key 3) —
`groupby` returns groups in ascending key order and `nlargest` keeps the
earliest frame rows — whereas the claimed first-encountered tie-break would
keep the group encountered first (key 5). -/
theorem C5_tiebreak_counterexample :
    runLogic c5df true 1 =
      Except.ok
        { percent := 1 / 2
          display := some
            { cols := [Sum.inr "a", Sum.inr "Number of Duplicates"]
              groups := [([Val.vInt 3], 2, [2, 3])] } }
    ∧ specMostDuplicatesFirstEncountered c5df 1 = [([Val.vInt 5], 2)]
    ∧ ([Val.vInt 3] : Row) ≠ [Val.vInt 5] := by
  refine ⟨?_, by decide, by decide⟩
  have hd : displayOut c5df 1 =
      ({ cols := [Sum.inr "a", Sum.inr "Number of Duplicates"]
         groups := [([Val.vInt 3], 2, [2, 3])] } : DisplayOut) := by decide
  rw [runLogic_eval_display (1 / 2) (by decide) c5df_percent (by norm_num), hd]

/-- C5 (amended): when evidence groups are produced they are exactly the
first `n_to_show` entries of the duplicate groups (count > 1) stably sorted
by occurrence count descending — ties broken by the grouping machinery's
ascending key order, not by first encounter — so the returned groups are
sorted by count descending, number at most `n_to_show`, are genuine duplicate
groups, and no omitted duplicate group has a strictly higher occurrence count
than any returned group. -/
theorem C5_topk_amended (df : DataFrame) (w : Bool) (k : Nat) (r : RunResult)
    (d : DisplayOut) (h : runLogic df w k = Except.ok r)
    (hd : r.display = some d) :
    d.groups.map (fun g => (g.1, g.2.1)) = mostDuplicates df k
    ∧ List.Pairwise (fun a b => b.2.1 ≤ a.2.1) d.groups
    ∧ d.groups.length ≤ k
    ∧ (∀ g ∈ d.groups, (g.1, g.2.1) ∈ dupGroups df ∧ 1 < g.2.1)
    ∧ (∀ g ∈ dupGroups df, g ∉ mostDuplicates df k →
        ∀ g2 ∈ d.groups, g.2 ≤ g2.2.1) := by
  obtain ⟨-, -, hdisp⟩ := runLogic_ok h
  rw [hd] at hdisp
  have hdval : d = displayOut df k := by
    by_cases hc : (w && decide (0 < percentDuplicate df)) = true
    · rw [if_pos hc] at hdisp
      exact Option.some.inj hdisp
    · rw [if_neg hc] at hdisp
      exact absurd hdisp (by simp)
  subst hdval
  have hgroups :
      (displayOut df k).groups =
        (mostDuplicates df k).map (fun g => (g.1, g.2, instancesOf df g.1)) := rfl
  have hcollapse : ∀ (l : List (Row × Nat)),
      (l.map (fun g => (g.1, g.2, instancesOf df g.1))).map
        (fun g => (g.1, g.2.1)) = l := by
    intro l
    induction l with
    | nil => rfl
    | cons a as ih => simp [ih]
  refine ⟨?_, ?_, ?_, ?_, ?_⟩
  · rw [hgroups, hcollapse]
  · rw [hgroups, List.pairwise_map]
    exact mostDuplicates_pairwise df k
  · rw [hgroups, List.length_map]
    unfold mostDuplicates
    simpa using List.length_take_le k _
  · intro g hg
    rw [hgroups] at hg
    obtain ⟨g0, hg0, rfl⟩ := List.mem_map.mp hg
    have hmem : g0 ∈ dupGroups df := mostDuplicates_subset df k g0 hg0
    have hcount : 1 < g0.2 := by
      have := List.mem_filter.mp hmem
      simpa using this.2
    exact ⟨by simpa using hmem, by simpa using hcount⟩
  · intro g hg hgout g2 hg2
    rw [hgroups] at hg2
    obtain ⟨g0, hg0, rfl⟩ := List.mem_map.mp hg2
    simpa using mostDuplicates_top df k g hg hgout g0 hg0

/-- Witness for C5 (amended) at the concrete dataframe `c5df`. -/
theorem C5_topk_amended_witness :
    ((displayOut c5df 1).groups.map (fun g => (g.1, g.2.1)) =
      mostDuplicates c5df 1)
    ∧ List.Pairwise (fun a b => b.2.1 ≤ a.2.1) (displayOut c5df 1).groups
    ∧ (displayOut c5df 1).groups.length ≤ 1
    ∧ (∀ g ∈ (displayOut c5df 1).groups,
        (g.1, g.2.1) ∈ dupGroups c5df ∧ 1 < g.2.1)
    ∧ (∀ g ∈ dupGroups c5df, g ∉ mostDuplicates c5df 1 →
        ∀ g2 ∈ (displayOut c5df 1).groups, g.2 ≤ g2.2.1) :=
  C5_topk_amended c5df true 1
    { percent := 1 / 2, display := some (displayOut c5df 1) }
    (displayOut c5df 1)
    (runLogic_eval_display (1 / 2) (by decide) c5df_percent (by norm_num)) rfl

/-- C6: for every non-empty sample, the returned ratio is
`1 - unique_group_count / sampled_row_count`, lies in `[0, 1]`, and is `0`
exactly when every sampled row-tuple is unique under the projection. -/
theorem C6_ratio (df : DataFrame) (w : Bool) (k : Nat) (r : RunResult)
    (hne : df.rows ≠ []) (h : runLogic df w k = Except.ok r) :
    r.percent = 1 - (nUnique df : ℚ) / (df.rows.length : ℚ)
    ∧ 0 ≤ r.percent ∧ r.percent ≤ 1
    ∧ (r.percent = 0 ↔ df.rows.Nodup) := by
  obtain ⟨-, hp, -⟩ := runLogic_ok h
  rw [hp]
  exact ⟨rfl, percentDuplicate_nonneg df hne, percentDuplicate_le_one df hne,
    percentDuplicate_eq_zero_iff df hne⟩

/-- A concrete dataframe with one duplicated pair among three rows. -/
def c6df : DataFrame :=
  { cols := [Sum.inr "a"], index := [0, 1, 2]
    rows := [[Val.vInt 1], [Val.vInt 1], [Val.vInt 2]] }

theorem c6df_percent : percentDuplicate c6df = 1 / 3 := by
  have h1 : nUnique c6df = 2 := by decide
  have h2 : c6df.rows.length = 3 := by decide
  unfold percentDuplicate
  rw [h1, h2]
  norm_num

/-- Witness for C6 at the concrete dataframe `c6df`. -/
theorem C6_ratio_witness :
    ((1 : ℚ) / 3 = 1 - (nUnique c6df : ℚ) / (c6df.rows.length : ℚ))
    ∧ (0 : ℚ) ≤ 1 / 3 ∧ (1 : ℚ) / 3 ≤ 1
    ∧ ((1 : ℚ) / 3 = 0 ↔ c6df.rows.Nodup) := by
  have := C6_ratio c6df true 5
    { percent := 1 / 3, display := some (displayOut c6df 5) }
    (by decide)
    (runLogic_eval_display (1 / 3) (by decide) c6df_percent (by norm_num))
  simpa using this

/-- C7: a successful run carries no display payload exactly when display
generation is disabled or the ratio is zero; otherwise the evidence display
is present. -/
theorem C7_display_condition (df : DataFrame) (w : Bool) (k : Nat)
    (r : RunResult) (h : runLogic df w k = Except.ok r) :
    r.display = none ↔ (w = false ∨ r.percent = 0) := by
  obtain ⟨hne, hp, hdisp⟩ := runLogic_ok h
  rw [hdisp, hp]
  by_cases hw : w
  · subst hw
    by_cases hz : percentDuplicate df = 0
    · simp [hz]
    · have hpos : 0 < percentDuplicate df :=
        lt_of_le_of_ne (percentDuplicate_nonneg df hne) (Ne.symm hz)
      simp [hz, hpos]
  · have hw2 : w = false := by simpa using hw
    subst hw2
    simp

/-- Witness for C7 at a concrete dataframe with no display requested. -/
theorem C7_display_condition_witness :
    (none : Option DisplayOut) = none ↔
      (false = false ∨
        (RunResult.mk (percentDuplicate c6df) none).percent = 0) := by
  exact C7_display_condition c6df false 5
    { percent := percentDuplicate c6df, display := none }
    (runLogic_eval_nodisplay (by decide))

/-- C9: when the single projected column is anonymous (integer label `0`),
the evidence table's key column header is the caller-visible label `0`, not
the synthetic internal label `str(names)` used by the grouping workaround. -/
theorem C9_anonymous_single_column (df : DataFrame) (w : Bool) (k : Nat)
    (r : RunResult) (d : DisplayOut) (hc : df.cols = [Sum.inl 0])
    (h : runLogic df w k = Except.ok r) (hd : r.display = some d) :
    d.cols = [Sum.inl 0, Sum.inr "Number of Duplicates"]
    ∧ syntheticName df.cols ∉ d.cols := by
  obtain ⟨-, -, hdisp⟩ := runLogic_ok h
  rw [hd] at hdisp
  have hdval : d = displayOut df k := by
    by_cases hcnd : (w && decide (0 < percentDuplicate df)) = true
    · rw [if_pos hcnd] at hdisp
      exact Option.some.inj hdisp
    · rw [if_neg hcnd] at hdisp
      exact absurd hdisp (by simp)
  subst hdval
  have hcols : (displayOut df k).cols = dupCountedCols df.cols := rfl
  rw [hcols, hc]
  constructor
  · decide
  · decide

/-- The all-anonymous two-row dataframe used as the C9 witness. -/
def c9df : DataFrame :=
  { cols := [Sum.inl 0], index := [0, 1], rows := [[Val.vInt 1], [Val.vInt 1]] }

theorem c9df_percent : percentDuplicate c9df = 1 / 2 := by
  have h1 : nUnique c9df = 1 := by decide
  have h2 : c9df.rows.length = 2 := by decide
  unfold percentDuplicate
  rw [h1, h2]
  norm_num

/-- Witness for C9 at the concrete dataframe `c9df`. -/
theorem C9_anonymous_single_column_witness :
    (displayOut c9df 5).cols = [Sum.inl 0, Sum.inr "Number of Duplicates"]
    ∧ syntheticName c9df.cols ∉ (displayOut c9df 5).cols :=
  C9_anonymous_single_column c9df true 5
    { percent := 1 / 2, display := some (displayOut c9df 5) }
    (displayOut c9df 5) rfl
    (runLogic_eval_display (1 / 2) (by decide) c9df_percent (by norm_num)) rfl

/-! ### Claim theorem for `fix` (C10) -/

/-- C10: `DataDuplicates.fix` leaves the caller's dataset unchanged — it
copies the data, projects and deduplicates the copy (the only in-place
mutation hits the freshly allocated frame), and wraps a fresh dataset in the
returned `FixResult`, so the frame behind the caller's reference is identical
before and after the call. -/
theorem C10_fix_preserves_dataset (st : Store) (ds : Nat)
    (columns ignoreColumns : Option (List ColName)) (keep : KeepMode)
    (h : ds < st.frames.length) :
    (fix st ds columns ignoreColumns keep).1.read ds = st.read ds := by
  unfold fix
  simp only [Store.alloc, Store.write, Store.read]
  have h1 : ds < st.frames.length + 1 := by omega
  have h2 : ds < st.frames.length + 1 + 1 := by omega
  rw [List.getElem?_append_left (by
    simpa only [List.length_set, List.length_append, List.length_cons,
      List.length_nil] using h2)]
  rw [List.getElem?_set_ne (by
    simp only [List.length_append, List.length_cons, List.length_nil]
    omega)]
  rw [List.getElem?_append_left (by
    simpa only [List.length_append, List.length_cons, List.length_nil] using h1)]
  rw [List.getElem?_append_left h]

/-- A one-frame store holding `c6df`. -/
def c10store : Store := { frames := [c6df] }

/-- Witness for C10 at the concrete store `c10store`. -/
theorem C10_fix_preserves_dataset_witness :
    (fix c10store 0 none none KeepMode.first).1.read 0 = c10store.read 0 :=
  C10_fix_preserves_dataset c10store 0 none none KeepMode.first
    (by decide)

/-! ### Lemmas about the serializer embedding -/

theorem mem_foldr_lightHr {x : Tok} {l : List Tok}
    (hx : x ∈ l.foldr (fun t acc => Tok.lightHr :: t :: acc) []) :
    x = Tok.lightHr ∨ x ∈ l := by
  induction l with
  | nil => simp at hx
  | cons y ys ih =>
    simp only [List.foldr] at hx
    rcases List.mem_cons.mp hx with h1 | h1
    · exact Or.inl h1
    rcases List.mem_cons.mp h1 with h2 | h2
    · exact Or.inr (by simp [h2])
    · rcases ih h2 with h3 | h3
      · exact Or.inl h3
      · exact Or.inr (List.mem_cons_of_mem _ h3)

theorem mem_joinLightHr {x : Tok} {l : List Tok} (hx : x ∈ joinLightHr l) :
    x = Tok.lightHr ∨ x ∈ l := by
  cases l with
  | nil => simp [joinLightHr] at hx
  | cons y ys =>
    unfold joinLightHr at hx
    rcases List.mem_cons.mp hx with h1 | h1
    · exact Or.inr (by simp [h1])
    · rcases mem_foldr_lightHr h1 with h2 | h2
      · exact Or.inl h2
      · exact Or.inr (List.mem_cons_of_mem _ h2)

theorem mem_prepareConditionsTable {x : Tok} {s : SuiteResult}
    {oid : Option String} (hx : x ∈ prepareConditionsTable s oid) :
    x = Tok.text "No conditions defined on checks in the suite." ∨
    x = Tok.header2 "Conditions Summary" ∨
    ∃ hs, x = Tok.conditionsTable hs 300 := by
  unfold prepareConditionsTable at hx
  split at hx
  · simp at hx
    exact Or.inl hx
  · rcases List.mem_cons.mp hx with h1 | h1
    · exact Or.inr (Or.inl h1)
    · simp at h1
      exact Or.inr (Or.inr ⟨_, h1⟩)

theorem mem_prepareResultsWithConditionAndDisplay {x : Tok} {s : SuiteResult}
    {oid : Option String} {cs : Option (List CheckSection)}
    (hx : x ∈ prepareResultsWithConditionAndDisplay s oid cs) :
    x = Tok.header2 "Check With Conditions Output" ∨ x = Tok.lightHr ∨
    ∃ o ∈ selectResults s (fun o => o.hasConditionsB && o.hasDisplayB),
      x = Tok.checkRender o.headerOf
        (effectiveCheckSections [("check_sections", cs)]) false false := by
  unfold prepareResultsWithConditionAndDisplay at hx
  rcases List.mem_cons.mp hx with h1 | h1
  · exact Or.inl h1
  rcases mem_joinLightHr h1 with h2 | h2
  · exact Or.inr (Or.inl h2)
  · obtain ⟨o, ho, rfl⟩ := List.mem_map.mp h2
    exact Or.inr (Or.inr ⟨o, ho, rfl⟩)

theorem mem_prepareResultsWithoutCondition {x : Tok} {s : SuiteResult}
    {oid : Option String} {cs : Option (List CheckSection)}
    (hx : x ∈ prepareResultsWithoutCondition s oid cs) :
    x = Tok.header2 "Check Without Conditions Output" ∨ x = Tok.lightHr ∨
    ∃ o ∈ selectResults s (fun o => !o.hasConditionsB && o.hasDisplayB),
      x = Tok.checkRender o.headerOf
        (effectiveCheckSections [("include", cs)]) false false := by
  unfold prepareResultsWithoutCondition at hx
  rcases List.mem_cons.mp hx with h1 | h1
  · exact Or.inl h1
  rcases mem_joinLightHr h1 with h2 | h2
  · exact Or.inr (Or.inl h2)
  · obtain ⟨o, ho, rfl⟩ := List.mem_map.mp h2
    exact Or.inr (Or.inr ⟨o, ho, rfl⟩)

theorem mem_prepareFailuresList {x : Tok} {m : SortValuesModel}
    {s : SuiteResult} (hx : x ∈ prepareFailuresList m s) :
    selectResults s failuresOrNoDisplay ≠ [] ∧
      (x = Tok.header2 "Other Checks That Weren\x27t Displayed" ∨
        ∃ rws, x = Tok.failuresTable rws) := by
  unfold prepareFailuresList at hx
  split at hx
  next hempty => simp at hx
  next hempty =>
    refine ⟨by simpa [List.isEmpty_iff] using hempty, ?_⟩
    rcases List.mem_cons.mp hx with h1 | h1
    · exact Or.inl h1
    · simp only [List.mem_singleton] at h1
      exact Or.inr ⟨_, h1⟩

/-- Case analysis for tokens of the assembled sections: everything is either
inert markup, an opaque table, an inner render invocation with both resource
flags disabled, or (only when the failures selection is non-empty) the
failures table. -/
theorem mem_failuresTail {x : Tok} {m : SortValuesModel} {s : SuiteResult}
    (hx : x ∈ failuresTail m s) :
    x = Tok.boldHr ∨ x ∈ prepareFailuresList m s := by
  unfold failuresTail at hx
  split at hx
  · simp at hx
  · rcases List.mem_append.mp hx with h | h
    · simp at h
      exact Or.inl h
    · exact Or.inr h

theorem mem_anchorTail {x : Tok} {oid : Option String}
    (hx : x ∈ anchorTail oid) : ∃ a, x = Tok.goToTop a := by
  cases oid with
  | none => simp [anchorTail] at hx
  | some a =>
    simp [anchorTail] at hx
    exact ⟨a, hx⟩

/-- Case analysis for tokens of the assembled sections: everything is either
inert markup, an opaque table, an inner render invocation with both resource
flags disabled, or (only when the failures selection is non-empty) the
failures table. -/
theorem mem_assembledSections {x : Tok} {m : SortValuesModel}
    {s : SuiteResult} {oid : Option String}
    (hx : x ∈ assembledSections m s oid) :
    (∃ n e o2, x = Tok.summaryBlock n e o2) ∨ x = Tok.boldHr ∨
    x = Tok.lightHr ∨ (∃ t, x = Tok.text t) ∨ (∃ t, x = Tok.header2 t) ∨
    (∃ hs m, x = Tok.conditionsTable hs m) ∨
    (∃ hh cs, x = Tok.checkRender hh cs false false) ∨
    ((∃ rws, x = Tok.failuresTable rws) ∧
      selectResults s failuresOrNoDisplay ≠ []) ∨
    (∃ a, x = Tok.goToTop a) := by
  unfold assembledSections at hx
  rcases List.mem_append.mp hx with hx | hx
  swap
  · exact Or.inr (Or.inr (Or.inr (Or.inr (Or.inr (Or.inr (Or.inr (Or.inr
      (mem_anchorTail hx))))))))
  rcases List.mem_append.mp hx with hx | hx
  swap
  · rcases mem_failuresTail hx with h | h
    · exact Or.inr (Or.inl h)
    · rcases mem_prepareFailuresList h with ⟨hne, h2 | ⟨rws, h2⟩⟩
      · exact Or.inr (Or.inr (Or.inr (Or.inr (Or.inl ⟨_, h2⟩))))
      · exact Or.inr (Or.inr (Or.inr (Or.inr (Or.inr (Or.inr (Or.inr
          (Or.inl ⟨⟨rws, h2⟩, hne⟩)))))))
  unfold baseSections at hx
  simp only [List.append_assoc, List.mem_append] at hx
  rcases hx with hx | hx | hx | hx | hx | hx | hx
  · unfold prepareSummary at hx
    simp at hx
    exact Or.inl ⟨_, _, _, hx⟩
  · simp at hx
    exact Or.inr (Or.inl hx)
  · rcases mem_prepareConditionsTable hx with h | h | ⟨hs, h⟩
    · exact Or.inr (Or.inr (Or.inr (Or.inl ⟨_, h⟩)))
    · exact Or.inr (Or.inr (Or.inr (Or.inr (Or.inl ⟨_, h⟩))))
    · exact Or.inr (Or.inr (Or.inr (Or.inr (Or.inr (Or.inl ⟨_, _, h⟩)))))
  · simp at hx
    exact Or.inr (Or.inl hx)
  · rcases mem_prepareResultsWithConditionAndDisplay hx with h | h | ⟨o, ho, h⟩
    · exact Or.inr (Or.inr (Or.inr (Or.inr (Or.inl ⟨_, h⟩))))
    · exact Or.inr (Or.inr (Or.inl h))
    · exact Or.inr (Or.inr (Or.inr (Or.inr (Or.inr (Or.inr (Or.inl ⟨_, _, h⟩))))))
  · simp at hx
    exact Or.inr (Or.inl hx)
  · rcases mem_prepareResultsWithoutCondition hx with h | h | ⟨o, ho, h⟩
    · exact Or.inr (Or.inr (Or.inr (Or.inr (Or.inl ⟨_, h⟩))))
    · exact Or.inr (Or.inr (Or.inl h))
    · exact Or.inr (Or.inr (Or.inr (Or.inr (Or.inr (Or.inr (Or.inl ⟨_, _, h⟩))))))

theorem assembledSections_plotlyWeight {m : SortValuesModel}
    {s : SuiteResult} {oid : Option String} :
    ∀ x ∈ assembledSections m s oid, plotlyWeight x = 0 := by
  intro x hx
  rcases mem_assembledSections hx with
    ⟨n, e, o2, h⟩ | h | h | ⟨t, h⟩ | ⟨t, h⟩ | ⟨hs, m, h⟩ | ⟨hh, cs, h⟩ |
    ⟨⟨rws, h⟩, -⟩ | ⟨a, h⟩ <;> subst h <;> rfl

theorem assembledSections_requireWeight {m : SortValuesModel}
    {s : SuiteResult} {oid : Option String} :
    ∀ x ∈ assembledSections m s oid, requireWeight x = 0 := by
  intro x hx
  rcases mem_assembledSections hx with
    ⟨n, e, o2, h⟩ | h | h | ⟨t, h⟩ | ⟨t, h⟩ | ⟨hs, m, h⟩ | ⟨hh, cs, h⟩ |
    ⟨⟨rws, h⟩, -⟩ | ⟨a, h⟩ <;> subst h <;> rfl

theorem assembledSections_checkRender_flags {m : SortValuesModel}
    {s : SuiteResult} {oid : Option String} {hh : String}
    {cs : Option (List CheckSection)} {pl rq : Bool}
    (hx : Tok.checkRender hh cs pl rq ∈ assembledSections m s oid) :
    pl = false ∧ rq = false := by
  rcases mem_assembledSections hx with
    ⟨n, e, o2, h⟩ | h | h | ⟨t, h⟩ | ⟨t, h⟩ | ⟨hs, m, h⟩ | ⟨hh2, cs2, h⟩ |
    ⟨⟨rws, h⟩, -⟩ | ⟨a, h⟩
  · exact absurd h (by simp)
  · exact absurd h (by simp)
  · exact absurd h (by simp)
  · exact absurd h (by simp)
  · exact absurd h (by simp)
  · exact absurd h (by simp)
  · injection h with h1 h2 h3 h4
    exact ⟨h3, h4⟩
  · exact absurd h (by simp)
  · exact absurd h (by simp)

theorem assembledSections_no_failuresTable {m : SortValuesModel}
    {s : SuiteResult} {oid : Option String}
    (hsel : selectResults s failuresOrNoDisplay = [])
    (rws : List (String × String)) :
    Tok.failuresTable rws ∉ assembledSections m s oid := by
  intro hx
  rcases mem_assembledSections hx with
    ⟨n, e, o2, h⟩ | h | h | ⟨t, h⟩ | ⟨t, h⟩ | ⟨hs, m, h⟩ | ⟨hh, cs, h⟩ |
    ⟨⟨rws2, h⟩, hne⟩ | ⟨a, h⟩
  · exact absurd h (by simp)
  · exact absurd h (by simp)
  · exact absurd h (by simp)
  · exact absurd h (by simp)
  · exact absurd h (by simp)
  · exact absurd h (by simp)
  · exact absurd h (by simp)
  · exact hne hsel
  · exact absurd h (by simp)

/-! ### Priority sort lemmas and claim theorems for the serializer -/

theorem failureRow_priority (o : Outcome) :
    (failureRow o).2.2 = if o.isFailure then 1 else 2 := by
  cases o <;> rfl

theorem insertByPriority_pri_one {x : String × String × Nat} (hx : x.2.2 = 1)
    (L : List (String × String × Nat)) (hL : ∀ y ∈ L, 1 ≤ y.2.2) :
    insertByPriority x L = x :: L := by
  cases L with
  | nil => rfl
  | cons y ys =>
    unfold insertByPriority
    rw [if_pos (by rw [hx]; exact hL y (List.mem_cons_self y ys))]

theorem insertByPriority_pri_two {x : String × String × Nat} (hx : x.2.2 = 2)
    (F1 F2 : List (String × String × Nat)) (h1 : ∀ y ∈ F1, y.2.2 = 1)
    (h2 : ∀ y ∈ F2, y.2.2 = 2) :
    insertByPriority x (F1 ++ F2) = F1 ++ x :: F2 := by
  induction F1 with
  | nil =>
    simp only [List.nil_append]
    cases F2 with
    | nil => rfl
    | cons y ys =>
      unfold insertByPriority
      rw [if_pos (by rw [hx, h2 y (List.mem_cons_self y ys)])]
  | cons y ys ih =>
    have hy : y.2.2 = 1 := h1 y (List.mem_cons_self y ys)
    simp only [List.cons_append]
    unfold insertByPriority
    rw [if_neg (by rw [hx, hy]; omega)]
    rw [ih (fun z hz => h1 z (List.mem_cons_of_mem y hz))]

theorem mem_filterFailure_priority (l : List Outcome) :
    ∀ y ∈ (l.filter Outcome.isFailure).map failureRow, y.2.2 = 1 := by
  intro y hy
  obtain ⟨o, ho, rfl⟩ := List.mem_map.mp hy
  have hf : o.isFailure = true := (List.mem_filter.mp ho).2
  rw [failureRow_priority, hf]
  rfl

theorem mem_filterSuccess_priority (l : List Outcome) :
    ∀ y ∈ (l.filter (fun o => !o.isFailure)).map failureRow, y.2.2 = 2 := by
  intro y hy
  obtain ⟨o, ho, rfl⟩ := List.mem_map.mp hy
  have hf : o.isFailure = false := by
    have := (List.mem_filter.mp ho).2
    simpa using this
  rw [failureRow_priority, hf]
  rfl

/-- The stable priority sort of the failure rows is exactly: all priority-1
rows (true failures) in original order, then all priority-2 rows (no-display
successes) in original order. -/
theorem sortByPriority_partition (l : List Outcome) :
    sortByPriority (l.map failureRow) =
      (l.filter Outcome.isFailure).map failureRow ++
      (l.filter (fun o => !o.isFailure)).map failureRow := by
  induction l with
  | nil => rfl
  | cons o rest ih =>
    have hstep : sortByPriority ((o :: rest).map failureRow) =
        insertByPriority (failureRow o) (sortByPriority (rest.map failureRow)) := rfl
    rw [hstep, ih]
    by_cases hf : o.isFailure = true
    · rw [insertByPriority_pri_one (by rw [failureRow_priority, hf]; rfl)]
      · simp [List.filter_cons, hf]
      · intro y hy
        rcases List.mem_append.mp hy with h | h
        · exact le_of_eq (mem_filterFailure_priority rest y h).symm
        · rw [mem_filterSuccess_priority rest y h]
          omega
    · have hf2 : o.isFailure = false := by simpa using hf
      rw [insertByPriority_pri_two (by rw [failureRow_priority, hf2]; rfl)
        _ _ (mem_filterFailure_priority rest) (mem_filterSuccess_priority rest)]
      simp [List.filter_cons, hf2]

theorem filter_map_failureRow_one (l : List Outcome) :
    (l.map failureRow).filter (fun r => r.2.2 == 1) =
      (l.filter Outcome.isFailure).map failureRow := by
  rw [List.filter_map]
  congr 1
  apply List.filter_congr
  intro o _
  cases o <;> rfl

theorem filter_map_failureRow_two (l : List Outcome) :
    (l.map failureRow).filter (fun r => !(r.2.2 == 1)) =
      (l.filter (fun o => !o.isFailure)).map failureRow := by
  rw [List.filter_map]
  congr 1
  apply List.filter_congr
  intro o _
  cases o <;> rfl

/-- A list that is non-decreasing in a priority key taking only the values 1
and 2 is its priority-1 rows followed by its priority-2 rows. -/
theorem sortedPriority_two_partition (l : List (String × String × Nat))
    (h : List.Pairwise (fun a b => a.2.2 ≤ b.2.2) l)
    (hv : ∀ r ∈ l, r.2.2 = 1 ∨ r.2.2 = 2) :
    l = l.filter (fun r => r.2.2 == 1) ++ l.filter (fun r => !(r.2.2 == 1)) := by
  induction l with
  | nil => rfl
  | cons x xs ih =>
    by_cases hx : x.2.2 = 1
    · have ihh := ih (List.Pairwise.of_cons h)
        (fun r hr => hv r (List.mem_cons_of_mem x hr))
      have hfx : (x :: xs).filter (fun r => r.2.2 == 1) =
          x :: xs.filter (fun r => r.2.2 == 1) := by
        simp [List.filter_cons, hx]
      have hfx2 : (x :: xs).filter (fun r => !(r.2.2 == 1)) =
          xs.filter (fun r => !(r.2.2 == 1)) := by
        simp [List.filter_cons, hx]
      rw [hfx, hfx2, List.cons_append]
      exact congrArg (List.cons x) ihh
    · have hx2 : x.2.2 = 2 := (hv x (List.mem_cons_self x xs)).resolve_left hx
      have hall : ∀ r ∈ x :: xs, r.2.2 = 2 := by
        intro r hr
        rcases List.mem_cons.mp hr with hr | hr
        · subst hr; exact hx2
        · have hle : x.2.2 ≤ r.2.2 := List.rel_of_pairwise_cons h hr
          rcases hv r (List.mem_cons_of_mem x hr) with h1 | h2
          · omega
          · exact h2
      have hf1 : (x :: xs).filter (fun r => r.2.2 == 1) = [] := by
        rw [List.filter_eq_nil_iff]
        intro a ha
        simp [hall a ha]
      have hf2 : (x :: xs).filter (fun r => !(r.2.2 == 1)) = x :: xs := by
        apply List.filter_eq_self.mpr
        intro a ha
        simp [hall a ha]
      rw [hf1, hf2, List.nil_append]

/-- C4 (amended): for every sorting routine meeting the documented
`sort_values` contract, the failures table splits into all priority-1 rows
(true failures) followed by all priority-2 rows (no-display successes), each
class holding exactly the corresponding outcomes' rows; within-priority run
order is guaranteed only for selections below numpy's 16-row stable cutoff;
and an empty selection yields the empty string, omitted from the assembled
report. -/
theorem C4_failures_list_order (m : SortValuesModel) (s : SuiteResult)
    (oid : Option String)
    (fullHtml includeRequirejs includePlotlyjs connected : Bool) :
    m.sort ((selectResults s failuresOrNoDisplay).map failureRow) =
      (m.sort ((selectResults s failuresOrNoDisplay).map failureRow)).filter
        (fun r => r.2.2 == 1) ++
      (m.sort ((selectResults s failuresOrNoDisplay).map failureRow)).filter
        (fun r => !(r.2.2 == 1))
    ∧ List.Perm
        ((m.sort ((selectResults s failuresOrNoDisplay).map failureRow)).filter
          (fun r => r.2.2 == 1))
        (((selectResults s failuresOrNoDisplay).filter Outcome.isFailure).map
          failureRow)
    ∧ List.Perm
        ((m.sort ((selectResults s failuresOrNoDisplay).map failureRow)).filter
          (fun r => !(r.2.2 == 1)))
        (((selectResults s failuresOrNoDisplay).filter
          (fun o => !o.isFailure)).map failureRow)
    ∧ (∀ o : Outcome, (failureRow o).2.2 = if o.isFailure then 1 else 2)
    ∧ ((selectResults s failuresOrNoDisplay).length < 16 →
        m.sort ((selectResults s failuresOrNoDisplay).map failureRow) =
          ((selectResults s failuresOrNoDisplay).filter Outcome.isFailure).map
            failureRow ++
          ((selectResults s failuresOrNoDisplay).filter
            (fun o => !o.isFailure)).map failureRow)
    ∧ (selectResults s failuresOrNoDisplay ≠ [] →
        prepareFailuresList m s =
          [Tok.header2 "Other Checks That Weren\x27t Displayed",
           Tok.failuresTable
             ((m.sort ((selectResults s failuresOrNoDisplay).map
               failureRow)).map (fun r => (r.1, r.2.1)))])
    ∧ (selectResults s failuresOrNoDisplay = [] →
        prepareFailuresList m s = [] ∧
        ∀ rws, Tok.failuresTable rws ∉
          (serialize m s oid fullHtml includeRequirejs includePlotlyjs
            connected).toks) := by
  have hv : ∀ r ∈ m.sort ((selectResults s failuresOrNoDisplay).map failureRow),
      r.2.2 = 1 ∨ r.2.2 = 2 := by
    intro r hr
    have hr2 : r ∈ (selectResults s failuresOrNoDisplay).map failureRow :=
      (m.perm _).mem_iff.mp hr
    obtain ⟨o, ho, rfl⟩ := List.mem_map.mp hr2
    rw [failureRow_priority]
    cases o.isFailure <;> simp
  refine ⟨?_, ?_, ?_, failureRow_priority, ?_, ?_, ?_⟩
  · exact sortedPriority_two_partition _ (m.sorted _) hv
  · have h1 := (m.perm ((selectResults s failuresOrNoDisplay).map
      failureRow)).filter (fun r => r.2.2 == 1)
    rw [filter_map_failureRow_one] at h1
    exact h1
  · have h1 := (m.perm ((selectResults s failuresOrNoDisplay).map
      failureRow)).filter (fun r => !(r.2.2 == 1))
    rw [filter_map_failureRow_two] at h1
    exact h1
  · intro hlen
    rw [m.smallStable _ (by rwa [List.length_map]), sortByPriority_partition]
  · intro hne
    unfold prepareFailuresList
    rw [if_neg (by simpa [List.isEmpty_iff] using hne)]
  · intro hsel
    constructor
    · unfold prepareFailuresList
      rw [if_pos (by simp [hsel])]
    · intro rws hmem
      unfold serialize at hmem
      simp only [List.mem_append] at hmem
      rcases hmem with hmem | hmem
      · rcases hmem with h | h
        · split at h <;> simp at h
        · split at h <;> simp at h
      · exact assembledSections_no_failuresTable hsel rws hmem

/-- A suite whose only outcome is a displayed success with conditions: the
failures selection is empty. -/
def c4suite : SuiteResult :=
  { name := "Suite", extraInfo := [], results := [Outcome.checkResult "a" true true] }

/-- Witness for C4 at the concrete suite `c4suite` and the stable member of
the contract family. -/
theorem C4_failures_list_order_witness :
    prepareFailuresList stableSortValues c4suite = [] ∧
    ∀ rws, Tok.failuresTable rws ∉
      (serialize stableSortValues c4suite none false false true true).toks :=
  (C4_failures_list_order stableSortValues c4suite none false false true
    true).2.2.2.2.2.2 rfl

/-- A member of the `sort_values` contract family that behaves stably below
the numpy cutoff but reverses longer inputs before stably sorting them — an
admissible behaviour for the documented-unstable default quicksort. -/
def advSortValues : SortValuesModel :=
  { sort := fun l =>
      if l.length < 16 then sortByPriority l else sortByPriority l.reverse
    perm := by
      intro l
      show List.Perm
        (if l.length < 16 then sortByPriority l else sortByPriority l.reverse) l
      by_cases h : l.length < 16
      · rw [if_pos h]
        exact sortByPriority_perm l
      · rw [if_neg h]
        exact (sortByPriority_perm l.reverse).trans (List.reverse_perm l)
    sorted := by
      intro l
      show List.Pairwise (fun a b => a.2.2 ≤ b.2.2)
        (if l.length < 16 then sortByPriority l else sortByPriority l.reverse)
      by_cases h : l.length < 16
      · rw [if_pos h]
        exact sortByPriority_sorted l
      · rw [if_neg h]
        exact sortByPriority_sorted l.reverse
    smallStable := by
      intro l h
      show (if l.length < 16 then sortByPriority l else sortByPriority l.reverse) =
        sortByPriority l
      rw [if_pos h] }

/-- Seventeen selected outcomes — one more than the stable cutoff: two true
failures followed by fifteen no-display successes. -/
def c4cexSuite : SuiteResult :=
  { name := "Suite", extraInfo := []
    results := Outcome.checkFailure "f1" "ValueError" "a" false ::
      Outcome.checkFailure "f2" "ValueError" "b" false ::
      List.replicate 15 (Outcome.checkResult "s" false false) }

/-- C4 (counterexample): unconditional within-priority run-order preservation
is not a consequence of the code — `sort_values` uses the documented-unstable
default quicksort, and the admissible behaviour `advSortValues` (satisfying
everything pandas/numpy guarantee, including stability below the cutoff)
reorders the two failures of this 17-row selection: the failures table lists
f2 before f1 although f1 ran first. -/
theorem C4_stability_counterexample :
    (advSortValues.sort
        ((selectResults c4cexSuite failuresOrNoDisplay).map failureRow)).map
        (fun r => r.1) =
      "f2" :: "f1" :: List.replicate 15 "s"
    ∧ ((selectResults c4cexSuite failuresOrNoDisplay).filter
        Outcome.isFailure).map (fun o => (failureRow o).1) = ["f1", "f2"]
    ∧ (selectResults c4cexSuite failuresOrNoDisplay).length = 17
    ∧ prepareFailuresList advSortValues c4cexSuite ≠
        prepareFailuresList stableSortValues c4cexSuite := by
  refine ⟨by decide, by decide, by decide, by decide⟩

/-- A suite with a single no-condition displayed success. -/
def c3suiteNoCond : SuiteResult :=
  { name := "Suite", extraInfo := [], results := [Outcome.checkResult "chk" false true] }

/-- A suite with a single condition-bearing displayed success. -/
def c3suiteCond : SuiteResult :=
  { name := "Suite", extraInfo := [], results := [Outcome.checkResult "chk" true true] }

/-- C3 (failing input): `prepare_results_without_condition` passes the section
restriction to the single-outcome renderer under the keyword `include`, which
the renderer does not declare, so the renderer receives `check_sections=None`
and renders all sections — the condition table is not suppressed — while the
sibling `prepare_results_with_condition_and_display` correctly passes
`check_sections=['additional-output']`. -/
theorem C3_section_restriction_dropped :
    prepareResultsWithoutCondition c3suiteNoCond none
        (some [CheckSection.additionalOutput]) =
      [Tok.header2 "Check Without Conditions Output",
       Tok.checkRender "chk" none false false]
    ∧ prepareResultsWithConditionAndDisplay c3suiteCond none
        (some [CheckSection.additionalOutput]) =
      [Tok.header2 "Check With Conditions Output",
       Tok.checkRender "chk" (some [CheckSection.additionalOutput]) false false]
    ∧ Tok.checkRender "chk" none false false ∈
        (serialize stableSortValues c3suiteNoCond none false false true
          true).toks
    ∧ (none : Option (List CheckSection)) ≠
        some [CheckSection.additionalOutput] := by
  refine ⟨by decide, by decide, by decide, by decide⟩

/-- C8: in any assembled document each resource bootstrap snippet occurs at
most once; every inner per-check renderer invocation has its resource
inclusion disabled; and in a standalone (`full_html`) document each snippet
occurs exactly once, however many outcomes are rendered. -/
theorem C8_resource_dedup (m : SortValuesModel) (s : SuiteResult)
    (oid : Option String)
    (fullHtml includeRequirejs includePlotlyjs connected : Bool) :
    plotlyCount (serialize m s oid fullHtml includeRequirejs includePlotlyjs
      connected) ≤ 1
    ∧ requireCount (serialize m s oid fullHtml includeRequirejs includePlotlyjs
        connected) ≤ 1
    ∧ (∀ hh cs pl rq, Tok.checkRender hh cs pl rq ∈
        (serialize m s oid fullHtml includeRequirejs includePlotlyjs
          connected).toks → pl = false ∧ rq = false)
    ∧ (fullHtml = true →
        plotlyCount (serialize m s oid fullHtml includeRequirejs
          includePlotlyjs connected) = 1 ∧
        requireCount (serialize m s oid fullHtml includeRequirejs
          includePlotlyjs connected) = 1) := by
  have hsum_p : ((assembledSections m s oid).map plotlyWeight).sum = 0 :=
    List.sum_eq_zero (fun y hy => by
      obtain ⟨a, ha, rfl⟩ := List.mem_map.mp hy
      exact assembledSections_plotlyWeight a ha)
  have hsum_r : ((assembledSections m s oid).map requireWeight).sum = 0 :=
    List.sum_eq_zero (fun y hy => by
      obtain ⟨a, ha, rfl⟩ := List.mem_map.mp hy
      exact assembledSections_requireWeight a ha)
  refine ⟨?_, ?_, ?_, ?_⟩
  · unfold serialize plotlyCount
    simp only [List.map_append, List.sum_append, hsum_p]
    cases fullHtml <;> cases includePlotlyjs <;> cases includeRequirejs <;>
      simp [plotlyWeight, requireWeight]
  · unfold serialize requireCount
    simp only [List.map_append, List.sum_append, hsum_r]
    cases fullHtml <;> cases includePlotlyjs <;> cases includeRequirejs <;>
      simp [plotlyWeight, requireWeight]
  · intro hh cs pl rq hmem
    unfold serialize at hmem
    simp only [List.mem_append] at hmem
    rcases hmem with hmem | hmem
    · rcases hmem with h | h
      · split at h <;> simp at h
      · split at h <;> simp at h
    · exact assembledSections_checkRender_flags hmem
  · intro hfh
    subst hfh
    constructor
    · unfold serialize plotlyCount
      simp only [List.map_append, List.sum_append, hsum_p]
      simp [plotlyWeight, requireWeight]
    · unfold serialize requireCount
      simp only [List.map_append, List.sum_append, hsum_r]
      simp [plotlyWeight, requireWeight]

/-- A suite with three displayed outcomes, all needing resources. -/
def c8suite : SuiteResult :=
  { name := "Suite", extraInfo := []
    results := [Outcome.checkResult "a" true true,
                Outcome.checkResult "b" false true,
                Outcome.checkResult "c" true true] }

/-- Witness for C8: a standalone document over three displayed outcomes holds
each bootstrap snippet exactly once. -/
theorem C8_resource_dedup_witness :
    plotlyCount (serialize stableSortValues c8suite none true false false
      true) = 1 ∧
    requireCount (serialize stableSortValues c8suite none true false false
      true) = 1 :=
  (C8_resource_dedup stableSortValues c8suite none true false false
    true).2.2.2 rfl

end Deepchecks
